import Mathlib

/-!
Verification of the trend-detection and goal-synthesis core of the
product-insight-agent repository.

The Python sources embedded here are:
  * `src/reporting/report_service.py` — `detect_significant_trends` and the four
    detector methods `_detect_sentiment_shifts`, `_detect_topic_clusters`,
    `_detect_volume_spikes`, `_detect_recurring_issues`;
  * `src/insights/goal_service.py` — `_filter_relevant_feedback`,
    `_generate_goal_with_llm`, `_calculate_priority`, `generate_single_goal`,
    `generate_goals_from_trends`;
  * `src/models.py` — the data structures these functions consume and produce.

Modelling conventions:
  * Python floats are modelled as exact rationals (`ℚ`); `int(x)` on a
    non-negative value is the floor.
  * Python dicts whose key sets are fixed (sentiment and topic breakdowns) are
    modelled as a three-field structure resp. a function out of the topic
    vocabulary; dict-comprehension maps keyed by feedback id are modelled by a
    last-entry-wins lookup, matching dict overwrite semantics.
  * Human-readable string fields that no claim depends on
    (`key_indicators`, `time_period`, the feedback items' text fields) are
    omitted from the embedded records.
  * The external LLM collaborator is modelled as a function from the trend to
    an abstract generation outcome (`GenResult`): it either raises, returns
    text that fails JSON parsing, or returns a parsed object with optional
    fields.  All embedded functions are total: every Python `except` branch
    that swallows an error and returns `None`/`[]` is modelled by the
    corresponding `none`/`[]` result.
-/

set_option maxHeartbeats 1600000

namespace ProductInsight

/-- `SentimentType` from `models.py`. -/
inductive SentimentType where
  | positive
  | negative
  | neutral
deriving DecidableEq

/-- `TopicTag` from `models.py`: the fixed closed topic vocabulary. -/
inductive TopicTag where
  | bug
  | feature_request
  | ui_feedback
  | performance
  | documentation
  | support
  | general
deriving DecidableEq

/-- The topic vocabulary in declaration order. -/
def TopicTag.all : List TopicTag :=
  [.bug, .feature_request, .ui_feedback, .performance, .documentation, .support, .general]

/-- `TrendType` from `models.py`. -/
inductive TrendType where
  | sentiment_shift
  | topic_cluster
  | volume_spike
  | recurring_issue
deriving DecidableEq

/-- A sentiment→count mapping with all three sentiments present
(the shape of `sentiment_breakdown` / `sentiment_distribution` dicts). -/
structure SentimentCounts where
  positive : Nat
  negative : Nat
  neutral : Nat
deriving DecidableEq

/-- `DailySummary` from `models.py`, restricted to the fields the detectors
read.  The data-model invariant says there is one aggregate per calendar
date, so iterating the summaries list is iterating the per-day dicts. -/
structure DailySummary where
  date : Nat
  total_feedback_items : Nat
  sentiment_breakdown : SentimentCounts
  topic_breakdown : TopicTag → Nat

/-- `FeedbackItem` from `models.py`, restricted to the fields the core
reads (`id` and `timestamp`). -/
structure FeedbackItem where
  id : Nat
  timestamp : Int
deriving DecidableEq

/-- `SentimentAnalysis` from `models.py` (the `sentiment` field). -/
structure SentimentAnalysis where
  sentiment : SentimentType
deriving DecidableEq

/-- `TopicAnalysis` from `models.py` (the `topics` field). -/
structure TopicAnalysis where
  topics : List TopicTag
deriving DecidableEq

/-- `InsightAnalysis` from `models.py`. -/
structure InsightAnalysis where
  feedback_id : Nat
  sentiment_analysis : SentimentAnalysis
  topic_analysis : TopicAnalysis
deriving DecidableEq

/-- `TrendAnalysis` from `models.py`, without the two human-readable string
fields (`key_indicators`, `time_period`). -/
structure TrendAnalysis where
  trend_type : TrendType
  confidence : ℚ
  affected_feedback_count : Nat
  primary_topics : List TopicTag
  sentiment_distribution : SentimentCounts
  severity_score : ℚ
deriving DecidableEq

/-- First-occurrence deduplication with an accumulator of already-seen
elements: the key order of a Python dict built by repeated insertion. -/
def firstDedupAux {α : Type} [DecidableEq α] (seen : List α) : List α → List α
  | [] => []
  | x :: xs =>
      if x ∈ seen then firstDedupAux seen xs
      else x :: firstDedupAux (x :: seen) xs

/-- Keys of a Python dict built by counting the elements of a list, in
insertion (= first occurrence) order. -/
def firstDedup {α : Type} [DecidableEq α] (l : List α) : List α :=
  firstDedupAux [] l

/-! ## Sentiment-shift detector (`_detect_sentiment_shifts`) -/

/-- `summaries[-2:]`: the last two daily summaries. -/
def recentSummaries (summaries : List DailySummary) : List DailySummary :=
  summaries.drop (summaries.length - 2)

/-- `summaries[:-2]`: all but the last two daily summaries. -/
def historicalSummaries (summaries : List DailySummary) : List DailySummary :=
  summaries.take (summaries.length - 2)

/-- Negative count summed over the recent slice. -/
def recentNegative (summaries : List DailySummary) : Nat :=
  ((recentSummaries summaries).map (fun s => s.sentiment_breakdown.negative)).sum

/-- Total count summed over the recent slice. -/
def recentTotal (summaries : List DailySummary) : Nat :=
  ((recentSummaries summaries).map (fun s => s.total_feedback_items)).sum

/-- Negative count summed over the historical slice. -/
def historicalNegative (summaries : List DailySummary) : Nat :=
  ((historicalSummaries summaries).map (fun s => s.sentiment_breakdown.negative)).sum

/-- Total count summed over the historical slice. -/
def historicalTotal (summaries : List DailySummary) : Nat :=
  ((historicalSummaries summaries).map (fun s => s.total_feedback_items)).sum

/-- `recent_negative / recent_total`. -/
def recentNegRate (summaries : List DailySummary) : ℚ :=
  (recentNegative summaries : ℚ) / (recentTotal summaries : ℚ)

/-- `historical_negative / historical_total`. -/
def histNegRate (summaries : List DailySummary) : ℚ :=
  (historicalNegative summaries : ℚ) / (historicalTotal summaries : ℚ)

/-- The multiset of topics carried by negative-sentiment analyses, in list
order: the iteration that builds `topic_counts` in `_detect_sentiment_shifts`. -/
def negTopicOccurrences (analyses : List InsightAnalysis) : List TopicTag :=
  (analyses.filter (fun a => a.sentiment_analysis.sentiment = .negative)).bind
    (fun a => a.topic_analysis.topics)

/-- `sorted(topic_counts.keys(), key=lambda t: topic_counts[t], reverse=True)`:
the distinct negative topics, stably sorted by frequency descending. -/
def rankedNegTopics (analyses : List InsightAnalysis) : List TopicTag :=
  let occ := negTopicOccurrences analyses
  List.insertionSort (fun s t => occ.count t ≤ occ.count s) (firstDedup occ)

/-- `_detect_sentiment_shifts` from `report_service.py`. -/
def detect_sentiment_shifts (summaries : List DailySummary)
    (feedback_items : List FeedbackItem)
    (analyses : List InsightAnalysis) : List TrendAnalysis :=
  if summaries.length < 3 then []
  else if recentTotal summaries > 0 ∧ historicalTotal summaries > 0 then
    if recentNegRate summaries > histNegRate summaries + 0.2 ∧
        recentNegative summaries ≥ 5 then
      let recent_feedback := feedback_items.filter (fun item =>
        analyses.any (fun a => a.feedback_id = item.id ∧
          a.sentiment_analysis.sentiment = .negative))
      if recent_feedback.isEmpty then []
      else
        [{ trend_type := .sentiment_shift
           confidence := min 0.9 ((recentNegRate summaries - histNegRate summaries) * 3)
           affected_feedback_count := recentNegative summaries
           primary_topics := (rankedNegTopics analyses).take 3
           sentiment_distribution :=
             { positive := ((recentSummaries summaries).map
                 (fun s => s.sentiment_breakdown.positive)).sum
               negative := recentNegative summaries
               neutral := ((recentSummaries summaries).map
                 (fun s => s.sentiment_breakdown.neutral)).sum }
           severity_score := min 1 ((recentNegRate summaries - histNegRate summaries) * 2
             + (recentNegative summaries : ℚ) / 20) }]
    else []
  else []

/-! ## Topic-cluster detector (`_detect_topic_clusters`) -/

/-- All topic occurrences across the analyses, in iteration order: the
traversal that builds `topic_counts` in `_detect_topic_clusters`. -/
def topicOccurrences (analyses : List InsightAnalysis) : List TopicTag :=
  analyses.bind (fun a => a.topic_analysis.topics)

/-- `topic_counts[topic]`. -/
def topicCount (analyses : List InsightAnalysis) (topic : TopicTag) : Nat :=
  (topicOccurrences analyses).count topic

/-- The analyses mentioning a given topic. -/
def topicAnalysesOf (analyses : List InsightAnalysis) (topic : TopicTag) :
    List InsightAnalysis :=
  analyses.filter (fun a => topic ∈ a.topic_analysis.topics)

/-- The per-topic sentiment distribution computed in `_detect_topic_clusters`. -/
def topicSentimentDist (analyses : List InsightAnalysis) (topic : TopicTag) :
    SentimentCounts :=
  { positive := ((topicAnalysesOf analyses topic).filter
      (fun a => a.sentiment_analysis.sentiment = .positive)).length
    negative := ((topicAnalysesOf analyses topic).filter
      (fun a => a.sentiment_analysis.sentiment = .negative)).length
    neutral := ((topicAnalysesOf analyses topic).filter
      (fun a => a.sentiment_analysis.sentiment = .neutral)).length }

/-- `volume_score = min(1.0, count / 20)`. -/
def clusterVolumeScore (analyses : List InsightAnalysis) (topic : TopicTag) : ℚ :=
  min 1 ((topicCount analyses topic : ℚ) / 20)

/-- `sentiment_score`: the topic's negative rate, scaled by 0.8 for the
catch-all general topic. -/
def clusterSentimentScore (analyses : List InsightAnalysis) (topic : TopicTag) : ℚ :=
  let negRate : ℚ :=
    ((topicSentimentDist analyses topic).negative : ℚ) / (topicCount analyses topic : ℚ)
  if topic ≠ .general then negRate else negRate * 0.8

/-- `severity_score = volume_score * 0.6 + sentiment_score * 0.4`. -/
def clusterSeverity (analyses : List InsightAnalysis) (topic : TopicTag) : ℚ :=
  clusterVolumeScore analyses topic * 0.6 + clusterSentimentScore analyses topic * 0.4

/-- The body of the per-topic loop of `_detect_topic_clusters`. -/
def mkTopicClusterCandidate (analyses : List InsightAnalysis) (topic : TopicTag) :
    Option TrendAnalysis :=
  let count := topicCount analyses topic
  let total_feedback := analyses.length
  if count ≥ 5 ∧ (count : ℚ) / (total_feedback : ℚ) ≥ 0.15 then
    if clusterSeverity analyses topic ≥ 0.5 then
      some { trend_type := .topic_cluster
             confidence := min 0.95 (clusterVolumeScore analyses topic + 0.3)
             affected_feedback_count := count
             primary_topics := [topic]
             sentiment_distribution := topicSentimentDist analyses topic
             severity_score := clusterSeverity analyses topic }
    else none
  else none

/-- `_detect_topic_clusters` from `report_service.py`.  The loop runs over the
keys of `topic_counts` in insertion order. -/
def detect_topic_clusters (summaries : List DailySummary)
    (feedback_items : List FeedbackItem)
    (analyses : List InsightAnalysis) : List TrendAnalysis :=
  (firstDedup (topicOccurrences analyses)).filterMap (mkTopicClusterCandidate analyses)

/-! ## Volume-spike detector (`_detect_volume_spikes`) -/

/-- `avg_volume`: mean of the daily totals. -/
def avgVolume (summaries : List DailySummary) : ℚ :=
  ((summaries.map (fun s => s.total_feedback_items)).sum : ℚ) / (summaries.length : ℚ)

/-- `recent_volume = summaries[-1].total_feedback_items`; the `0` branch is
unreachable in the detector, which indexes only lists of length ≥ 3. -/
def lastSummaryTotal (summaries : List DailySummary) : Nat :=
  match summaries.getLast? with
  | some s => s.total_feedback_items
  | none => 0

/-- `_detect_volume_spikes` from `report_service.py`. -/
def detect_volume_spikes (summaries : List DailySummary)
    (feedback_items : List FeedbackItem) : List TrendAnalysis :=
  if summaries.length < 3 then []
  else
    let recent_volume := lastSummaryTotal summaries
    if (recent_volume : ℚ) > avgVolume summaries * 2 ∧ recent_volume ≥ 10 then
      [{ trend_type := .volume_spike
         confidence := 0.9
         affected_feedback_count := recent_volume
         primary_topics := [.general]
         sentiment_distribution :=
           { positive := 0, negative := 0, neutral := recent_volume }
         severity_score := min 1 (((recent_volume : ℚ) / avgVolume summaries) / 5) }]
    else []

/-! ## Recurring-issue detector (`_detect_recurring_issues`) -/

/-- `sum(summary.topic_breakdown.values())`. -/
def topicMentionsTotal (s : DailySummary) : Nat :=
  (TopicTag.all.map s.topic_breakdown).sum

/-- `int(x)` for a non-negative rational. -/
def ratFloorNat (q : ℚ) : Nat := (Int.floor q).toNat

/-- The per-day per-topic negative estimate of `_detect_recurring_issues`:
`min(count, int(negative_sentiment_count * (count / sum(topic_breakdown.values()))))`.
When the topic count is zero the estimate is zero, exactly as when the Python
loop skips the topic. -/
def recurringEstimate (s : DailySummary) (t : TopicTag) : Nat :=
  min (s.topic_breakdown t)
    (ratFloorNat ((s.sentiment_breakdown.negative : ℚ) *
      ((s.topic_breakdown t : ℚ) / (topicMentionsTotal s : ℚ))))

/-- `topic_occurrence_days[topic]`: number of days with positive estimate. -/
def occurrenceDays (summaries : List DailySummary) (t : TopicTag) : Nat :=
  (summaries.filter (fun s => 0 < recurringEstimate s t)).length

/-- `topic_total_counts[topic]`: the summed per-day estimates (zero-estimate
days contribute nothing). -/
def totalEstimate (summaries : List DailySummary) (t : TopicTag) : Nat :=
  (summaries.map (fun s => recurringEstimate s t)).sum

/-- `consistency_score * 0.7 + impact_score * 0.3`. -/
def recurringSeverity (summaries : List DailySummary) (t : TopicTag) : ℚ :=
  ((occurrenceDays summaries t : ℚ) / (summaries.length : ℚ)) * 0.7 +
    min 1 ((totalEstimate summaries t : ℚ) / 10) * 0.3

/-- The body of the per-topic loop of `_detect_recurring_issues`.  The
`0 < occurrenceDays` guard models membership of the topic in the
`topic_occurrence_days` dict. -/
def mkRecurringCandidate (summaries : List DailySummary) (t : TopicTag) :
    Option TrendAnalysis :=
  if 0 < occurrenceDays summaries t ∧
      (occurrenceDays summaries t : ℚ) ≥ (summaries.length : ℚ) * 0.5 ∧
      totalEstimate summaries t ≥ 3 then
    if recurringSeverity summaries t ≥ 0.6 then
      some { trend_type := .recurring_issue
             confidence := 0.8
             affected_feedback_count := totalEstimate summaries t
             primary_topics := [t]
             sentiment_distribution :=
               { positive := 0, negative := totalEstimate summaries t, neutral := 0 }
             severity_score := recurringSeverity summaries t }
    else none
  else none

/-- `_detect_recurring_issues` from `report_service.py`.  The per-topic loop
is run over the topic vocabulary; the emitted set does not depend on that
order, only the emission order of the returned list does. -/
def detect_recurring_issues (summaries : List DailySummary)
    (feedback_items : List FeedbackItem)
    (analyses : List InsightAnalysis) : List TrendAnalysis :=
  if summaries.length < 5 then []
  else TopicTag.all.filterMap (mkRecurringCandidate summaries)

/-! ## Trend filter (`detect_significant_trends`) -/

/-- The concatenation of the four detectors' outputs, in the order the Python
method extends its `trends` list. -/
def concatenatedTrends (summaries : List DailySummary)
    (feedback_items : List FeedbackItem)
    (analyses : List InsightAnalysis) : List TrendAnalysis :=
  detect_sentiment_shifts summaries feedback_items analyses
    ++ detect_topic_clusters summaries feedback_items analyses
    ++ detect_volume_spikes summaries feedback_items
    ++ detect_recurring_issues summaries feedback_items analyses

/-- Python's stable `list.sort(key=..., reverse=True)`, specialised to the
severity key: insertion sort by `severity_score` descending. -/
def sortBySeverityDesc (l : List TrendAnalysis) : List TrendAnalysis :=
  List.insertionSort (fun a b => b.severity_score ≤ a.severity_score) l

/-- `detect_significant_trends` from `report_service.py`. -/
def detect_significant_trends (summaries : List DailySummary)
    (feedback_items : List FeedbackItem)
    (analyses : List InsightAnalysis) : List TrendAnalysis :=
  sortBySeverityDesc
    ((concatenatedTrends summaries feedback_items analyses).filter
      (fun t => t.severity_score ≥ 0.6))

/-! ## Priority calculator (`_calculate_priority`) -/

/-- The severity-band block at the top of `_calculate_priority`: ≥0.9→5,
≥0.8→4, ≥0.6→3, ≥0.4→2, else 1 (the initial default 3 is dead, as every
branch reassigns). -/
def basePriority (severity_score : ℚ) : Nat :=
  if severity_score ≥ 0.9 then 5
  else if severity_score ≥ 0.8 then 4
  else if severity_score ≥ 0.6 then 3
  else if severity_score ≥ 0.4 then 2
  else 1

/-- `_calculate_priority` from `goal_service.py`. -/
def calculate_priority (trend : TrendAnalysis) : Nat :=
  let base1 : Nat := basePriority trend.severity_score
  let base2 : Nat :=
    if trend.trend_type = .sentiment_shift then min 5 (base1 + 1)
    else if trend.trend_type = .recurring_issue then min 5 (base1 + 1)
    else if trend.trend_type = .volume_spike then max 1 (min 5 base1)
    else base1
  let base3 : Nat :=
    if trend.affected_feedback_count ≥ 20 then min 5 (base2 + 1)
    else if trend.affected_feedback_count ≤ 3 then max 1 (base2 - 1)
    else base2
  let base4 : Nat :=
    if trend.primary_topics.any (fun t => t = .bug ∨ t = .performance) then
      min 5 (base3 + 1)
    else base3
  max 1 (min 5 base4)

/-- The priority formula as the claim words it: base from severity bands,
then the three additive adjustments, each clamped immediately, then a final
clamp to `[1,5]`.  Used only to compare the claim's wording against
`calculate_priority`. -/
def priority_claim_formula (trend : TrendAnalysis) : Nat :=
  let base : Nat := basePriority trend.severity_score
  let p1 : Nat :=
    if trend.trend_type = .sentiment_shift ∨ trend.trend_type = .recurring_issue then
      min 5 (base + 1)
    else base
  let p2 : Nat :=
    if trend.affected_feedback_count ≥ 20 then min 5 (p1 + 1)
    else if trend.affected_feedback_count ≤ 3 then max 1 (p1 - 1)
    else p1
  let p3 : Nat :=
    if trend.primary_topics.any (fun t => t = .bug ∨ t = .performance) then
      min 5 (p2 + 1)
    else p2
  max 1 (min 5 p3)

/-! ## Relevance filter (`_filter_relevant_feedback`) -/

/-- The `analysis_map` dict comprehension keyed by `feedback_id`: a later
analysis with the same id overwrites an earlier one, so lookup finds the
last matching entry. -/
def lookupAnalysis (analyses : List InsightAnalysis) (fid : Nat) :
    Option InsightAnalysis :=
  analyses.reverse.find? (fun a => a.feedback_id = fid)

/-- The per-item relevance test of `_filter_relevant_feedback`: items with no
classification are skipped; otherwise topic overlap, negative sentiment under
a sentiment-shift trend, or a volume-spike trend make the item relevant. -/
def relevantTo (trend : TrendAnalysis) (analyses : List InsightAnalysis)
    (item : FeedbackItem) : Bool :=
  match lookupAnalysis analyses item.id with
  | none => false
  | some analysis =>
      trend.primary_topics.any (fun t => t ∈ analysis.topic_analysis.topics)
      || (decide (trend.trend_type = .sentiment_shift) &&
            decide (analysis.sentiment_analysis.sentiment = .negative))
      || decide (trend.trend_type = .volume_spike)

/-- `_filter_relevant_feedback` from `goal_service.py`: filter, stable sort by
timestamp descending, cap at 10. -/
def filter_relevant_feedback (trend : TrendAnalysis)
    (supporting_feedback : List FeedbackItem)
    (supporting_analyses : List InsightAnalysis) : List FeedbackItem :=
  let relevant_items := supporting_feedback.filter (relevantTo trend supporting_analyses)
  (List.insertionSort (fun a b => b.timestamp ≤ a.timestamp) relevant_items).take 10

/-! ## Goal synthesis (`_generate_goal_with_llm`, `generate_single_goal`,
`generate_goals_from_trends`) -/

/-- Outcome of one call to the external text-generation collaborator, as seen
by `_generate_goal_with_llm` after `json.loads`: the call raised, the response
failed JSON parsing, or it parsed into the expected object whose fields may be
absent.  `none` for `title`/`description` covers both a missing key and a
falsy (empty) value, which the Python `not goal_data.get(...)` check treats
alike; an empty string is also covered by the length checks. -/
inductive GenResult where
  | raises
  | unparsable
  | parsed (title description : Option String) (tags : List String)
      (estimated_effort potential_impact : Option String)

/-- The validated payload `_generate_goal_with_llm` returns on success. -/
structure GoalData where
  title : String
  description : String
  tags : List String
  estimated_effort : Option String
  potential_impact : Option String
deriving DecidableEq

/-- `_generate_goal_with_llm` from `goal_service.py`, after the LLM call and
JSON parse have been abstracted into a `GenResult`: every failure branch
(exception, parse failure, missing field, out-of-bounds length) returns
`none`. -/
def generate_goal_with_llm (result : GenResult) : Option GoalData :=
  match result with
  | .raises => none
  | .unparsable => none
  | .parsed title description tags eff imp =>
      match title, description with
      | some t, some d =>
          if t.length = 0 ∨ d.length = 0 then none
          else if t.length < 10 ∨ t.length > 200 then none
          else if d.length < 50 then none
          else some ⟨t, d, tags, eff, imp⟩
      | _, _ => none

/-- `GoalProposalStatus` from `models.py`. -/
inductive GoalProposalStatus where
  | pending
  | approved
  | rejected
  | in_progress
  | completed
deriving DecidableEq

/-- `GoalProposal` from `models.py`, without the generated-at-creation
metadata fields (`id`, `created_at`, `created_by`). -/
structure GoalProposal where
  title : String
  description : String
  status : GoalProposalStatus
  priority : Nat
  source_trend : TrendAnalysis
  supporting_feedback_ids : List Nat
  tags : List String
  estimated_effort : Option String
  potential_impact : Option String
  summary_text : String
deriving DecidableEq

/-- `f"{title} - {description[:100]}..."`. -/
def mkSummaryText (goal_data : GoalData) : String :=
  goal_data.title ++ " - " ++ goal_data.description.take 100 ++ "..."

/-- `generate_single_goal` from `goal_service.py`.  The collaborator is the
function `llm` from the trend to its generation outcome. -/
def generate_single_goal (llm : TrendAnalysis → GenResult)
    (trend : TrendAnalysis)
    (supporting_feedback : List FeedbackItem)
    (supporting_analyses : List InsightAnalysis) : Option GoalProposal :=
  let relevant_feedback :=
    filter_relevant_feedback trend supporting_feedback supporting_analyses
  if relevant_feedback.isEmpty then none
  else
    match generate_goal_with_llm (llm trend) with
    | none => none
    | some goal_data =>
        some { title := goal_data.title
               description := goal_data.description
               status := .pending
               priority := calculate_priority trend
               source_trend := trend
               supporting_feedback_ids := relevant_feedback.map (fun i => i.id)
               tags := goal_data.tags
               estimated_effort := goal_data.estimated_effort
               potential_impact := goal_data.potential_impact
               summary_text := mkSummaryText goal_data }

/-- `generate_goals_from_trends` from `goal_service.py`: each trend is
processed independently; a `none` outcome (including every caught failure)
is skipped and the loop continues. -/
def generate_goals_from_trends (llm : TrendAnalysis → GenResult)
    (trends : List TrendAnalysis)
    (supporting_feedback : List FeedbackItem)
    (supporting_analyses : List InsightAnalysis) : List GoalProposal :=
  trends.filterMap
    (fun t => generate_single_goal llm t supporting_feedback supporting_analyses)

/-! ## Concrete instances used by the claims -/

/-- An all-zero topic breakdown. -/
def zeroTopics : TopicTag → Nat := fun _ => 0

/-- Three daily summaries realising historical negative rate 10/100 and
recent negative rate 10/20 over the last two days. -/
def exShiftSummaries : List DailySummary :=
  [⟨1, 100, ⟨90, 10, 0⟩, zeroTopics⟩,
   ⟨2, 10, ⟨5, 5, 0⟩, zeroTopics⟩,
   ⟨3, 10, ⟨5, 5, 0⟩, zeroTopics⟩]

/-- A single feedback item with a negative classification mentioning bug. -/
def exShiftFeedback : List FeedbackItem := [⟨0, 0⟩]

/-- The classification of `exShiftFeedback`. -/
def exShiftAnalyses : List InsightAnalysis := [⟨0, ⟨.negative⟩, ⟨[.bug]⟩⟩]

/-- 30 analyses: topic bug occurs 6 times (20 percent of total, none of them
negative); support and general occur 12 times each, neither negative, so
their severities 0.36 fall below the 0.5 cut as well. -/
def exClusterAnalyses : List InsightAnalysis :=
  List.replicate 6 ⟨0, ⟨.neutral⟩, ⟨[.bug]⟩⟩
  ++ List.replicate 12 ⟨0, ⟨.neutral⟩, ⟨[.support]⟩⟩
  ++ List.replicate 12 ⟨0, ⟨.neutral⟩, ⟨[.general]⟩⟩

/-- Daily totals 5, 5, 30: the last day is a volume spike. -/
def exSpikeSummaries : List DailySummary :=
  [⟨1, 5, ⟨5, 0, 0⟩, zeroTopics⟩,
   ⟨2, 5, ⟨5, 0, 0⟩, zeroTopics⟩,
   ⟨3, 30, ⟨30, 0, 0⟩, zeroTopics⟩]

/-- A topic breakdown mentioning only bug. -/
def bugOnly (n : Nat) : TopicTag → Nat := fun t => if t = .bug then n else 0

/-- Five days; bug carries one negative estimate on each of the first three
days, so it is present on 3 of 5 days with summed estimate 3. -/
def exRecurringA : List DailySummary :=
  [⟨1, 1, ⟨0, 1, 0⟩, bugOnly 1⟩,
   ⟨2, 1, ⟨0, 1, 0⟩, bugOnly 1⟩,
   ⟨3, 1, ⟨0, 1, 0⟩, bugOnly 1⟩,
   ⟨4, 1, ⟨1, 0, 0⟩, bugOnly 1⟩,
   ⟨5, 1, ⟨1, 0, 0⟩, bugOnly 1⟩]

/-- A topic breakdown with bug mentioned twice and support once. -/
def bugSupportTopics : TopicTag → Nat :=
  fun t => if t = .bug then 2 else if t = .support then 1 else 0

/-- Five identical days on which the exact proportional bug estimate is 2/3
per day (so positive every day, summing to 10/3 ≥ 3) while the code's
floored estimate is 0. -/
def exRecurringB : List DailySummary :=
  [⟨1, 3, ⟨2, 1, 0⟩, bugSupportTopics⟩,
   ⟨2, 3, ⟨2, 1, 0⟩, bugSupportTopics⟩,
   ⟨3, 3, ⟨2, 1, 0⟩, bugSupportTopics⟩,
   ⟨4, 3, ⟨2, 1, 0⟩, bugSupportTopics⟩,
   ⟨5, 3, ⟨2, 1, 0⟩, bugSupportTopics⟩]

/-- A volume-spike trend (the one detected on `exSpikeSummaries`). -/
def exVolumeTrend : TrendAnalysis :=
  ⟨.volume_spike, 0.9, 30, [.general], ⟨0, 0, 30⟩, 9/20⟩

/-- A 10-character title. -/
def exTitle10 : String := "aaaaaaaaaa"

/-- A 5-character title. -/
def exTitle5 : String := "aaaaa"

/-- A 50-character description. -/
def exDesc50 : String := "bbbbbbbbbbbbbbbbbbbbbbbbbbbbbbbbbbbbbbbbbbbbbbbbbb"

/-- A pool with one feedback item. -/
def exPool : List FeedbackItem := [⟨0, 0⟩]

/-- A neutral, general classification of the item in `exPool`. -/
def exPoolAnalyses : List InsightAnalysis := [⟨0, ⟨.neutral⟩, ⟨[.general]⟩⟩]

/-- A collaborator returning a well-formed payload for every trend. -/
def exGoodLLM : TrendAnalysis → GenResult :=
  fun _ => .parsed (some exTitle10) (some exDesc50) [] none none

/-- A collaborator whose title is 5 characters long. -/
def exShortTitleLLM : TrendAnalysis → GenResult :=
  fun _ => .parsed (some exTitle5) (some exDesc50) [] none none

/-- Three distinct trends for the batch-independence instance (they differ in
their affected counts). -/
def exBatchTrend1 : TrendAnalysis := ⟨.volume_spike, 1, 31, [.general], ⟨0, 0, 30⟩, 1⟩

/-- Second batch trend (the one whose generation fails). -/
def exBatchTrend2 : TrendAnalysis := ⟨.volume_spike, 1, 32, [.general], ⟨0, 0, 30⟩, 1⟩

/-- Third batch trend. -/
def exBatchTrend3 : TrendAnalysis := ⟨.volume_spike, 1, 33, [.general], ⟨0, 0, 30⟩, 1⟩

/-- A collaborator that raises exactly on the second batch trend. -/
def exBatchLLM : TrendAnalysis → GenResult :=
  fun t => if t = exBatchTrend2 then .raises else exGoodLLM t

/-! ## Generic lemmas about the stable descending sort -/

/-- `List.insertionSort` by a key, descending, produces a list sorted by that
key descending. -/
theorem pairwise_insertionSortKeyDesc {α β : Type} [LinearOrder β] (k : α → β)
    (l : List α) :
    (List.insertionSort (fun a b => k b ≤ k a) l).Pairwise (fun a b => k b ≤ k a) :=
  @List.sorted_insertionSort α (fun a b => k b ≤ k a) (fun _ _ => inferInstance)
    ⟨fun a b => le_total (k b) (k a)⟩ ⟨fun _ _ _ hab hbc => le_trans hbc hab⟩ l

/-- Stability of the descending insertion sort: the sublist of elements whose
key equals any fixed value is exactly the corresponding sublist of the input,
in the input's order. -/
theorem filter_insertionSortKeyDesc {α β : Type} [LinearOrder β] [DecidableEq β]
    (k : α → β) (c : β) (l : List α) :
    (List.insertionSort (fun a b => k b ≤ k a) l).filter (fun x => k x = c)
      = l.filter (fun x => k x = c) := by
  have hpair : (l.filter (fun x => k x = c)).Pairwise (fun a b => k b ≤ k a) := by
    refine List.pairwise_of_forall_mem_list ?_
    intro a ha b hb
    have ha' : k a = c := of_decide_eq_true (List.mem_filter.mp ha).2
    have hb' : k b = c := of_decide_eq_true (List.mem_filter.mp hb).2
    rw [ha', hb']
  have hsub : List.Sublist (l.filter (fun x => k x = c))
      (List.insertionSort (fun a b => k b ≤ k a) l) :=
    List.sublist_insertionSort hpair (List.filter_sublist l)
  have hsub2 := hsub.filter (fun x => decide (k x = c))
  rw [List.filter_filter] at hsub2
  simp only [Bool.and_self] at hsub2
  have hlen : (l.filter (fun x => k x = c)).length
      = ((List.insertionSort (fun a b => k b ≤ k a) l).filter (fun x => k x = c)).length :=
    (((List.perm_insertionSort _ l).filter _).length_eq).symm
  exact (hsub2.eq_of_length hlen).symm

/-- `firstDedupAux` keeps precisely the elements not yet seen. -/
theorem mem_firstDedupAux {α : Type} [DecidableEq α] (a : α) :
    ∀ (l seen : List α), a ∈ firstDedupAux seen l ↔ a ∈ l ∧ a ∉ seen := by
  intro l
  induction l with
  | nil => intro seen; simp [firstDedupAux]
  | cons x xs ih =>
      intro seen
      by_cases hx : x ∈ seen
      · simp only [firstDedupAux, if_pos hx, ih, List.mem_cons]
        constructor
        · rintro ⟨hmem, hseen⟩; exact ⟨Or.inr hmem, hseen⟩
        · rintro ⟨hx' | hmem, hseen⟩
          · exact absurd (hx' ▸ hx) hseen
          · exact ⟨hmem, hseen⟩
      · simp only [firstDedupAux, if_neg hx, List.mem_cons, ih]
        constructor
        · rintro (rfl | ⟨hmem, hseen⟩)
          · exact ⟨Or.inl rfl, hx⟩
          · exact ⟨Or.inr hmem, fun hc => hseen (Or.inr hc)⟩
        · rintro ⟨rfl | hmem, hseen⟩
          · exact Or.inl rfl
          · by_cases hax : a = x
            · exact Or.inl hax
            · exact Or.inr ⟨hmem, fun hc => hc.elim hax hseen⟩

/-- Membership in `firstDedup` is membership in the underlying list. -/
theorem mem_firstDedup {α : Type} [DecidableEq α] (a : α) (l : List α) :
    a ∈ firstDedup l ↔ a ∈ l := by
  simp [firstDedup, mem_firstDedupAux]

/-! ## Claim theorems -/

/-- C1: the final significant-trend list contains exactly the candidates of
the concatenated detector outputs (sentiment-shift, topic-cluster,
volume-spike, recurring-issue, in that order) with severity-score ≥ 0.6, is
sorted by severity-score descending, and candidates of equal severity keep
the relative order they had in the concatenation (stable sort). -/
theorem C1_significant_trends_filter_sort_stable
    (summaries : List DailySummary) (feedback_items : List FeedbackItem)
    (analyses : List InsightAnalysis) :
    List.Perm (detect_significant_trends summaries feedback_items analyses)
      ((concatenatedTrends summaries feedback_items analyses).filter
        (fun t => t.severity_score ≥ 0.6))
    ∧ (detect_significant_trends summaries feedback_items analyses).Pairwise
        (fun a b => b.severity_score ≤ a.severity_score)
    ∧ ∀ c : ℚ,
        (detect_significant_trends summaries feedback_items analyses).filter
            (fun t => t.severity_score = c)
          = ((concatenatedTrends summaries feedback_items analyses).filter
              (fun t => t.severity_score ≥ 0.6)).filter
              (fun t => t.severity_score = c) := by
  refine ⟨?_, ?_, ?_⟩
  · exact List.perm_insertionSort _ _
  · exact pairwise_insertionSortKeyDesc (fun t : TrendAnalysis => t.severity_score) _
  · intro c
    exact filter_insertionSortKeyDesc (fun t : TrendAnalysis => t.severity_score) c _

/-- C2: the priority calculator always lands in `[1,5]`, agrees with the
claim's banded base-plus-clamped-adjustments formula, and yields 5 resp. 1 on
the claim's two concrete instances. -/
theorem C2_priority_calculator :
    (∀ trend : TrendAnalysis,
        1 ≤ calculate_priority trend ∧ calculate_priority trend ≤ 5 ∧
          calculate_priority trend = priority_claim_formula trend)
    ∧ calculate_priority ⟨.sentiment_shift, 0.9, 25, [.bug], ⟨0, 0, 0⟩, 0.95⟩ = 5
    ∧ calculate_priority ⟨.topic_cluster, 0.5, 2, [.general], ⟨0, 0, 0⟩, 0.3⟩ = 1 := by
  refine ⟨?_, ?hi, ?lo⟩
  case hi =>
    have hb : basePriority (0.95 : ℚ) = 5 := by norm_num [basePriority]
    simp +decide only [calculate_priority, hb]
  case lo =>
    have hb : basePriority (0.3 : ℚ) = 1 := by norm_num [basePriority]
    simp +decide only [calculate_priority, hb]
  intro trend
  have h15 : 1 ≤ basePriority trend.severity_score ∧
      basePriority trend.severity_score ≤ 5 := by
    unfold basePriority; split_ifs <;> omega
  rcases trend with ⟨ty, conf, cnt, topics, dist, sev⟩
  rcases h15 with ⟨h1, h5⟩
  simp only [calculate_priority, priority_claim_formula]
  generalize hb : basePriority sev = b at h1 h5 ⊢
  cases ty <;> simp +decide only [] <;> split_ifs <;> omega

/-- C3: the sentiment-shift detector fires only when the recent negative rate
exceeds the historical rate by more than 0.2 and the recent negative count is
at least 5; every emitted candidate carries the specified affected count,
frequency-ranked primary topics, confidence and severity; and on the concrete
10/100-versus-10/20 instance it fires with confidence 0.9 and severity 1. -/
theorem C3_sentiment_shift_detector :
    (∀ (summaries : List DailySummary) (feedback_items : List FeedbackItem)
        (analyses : List InsightAnalysis),
      ∀ tr ∈ detect_sentiment_shifts summaries feedback_items analyses,
        recentNegRate summaries > histNegRate summaries + 0.2 ∧
        recentNegative summaries ≥ 5 ∧
        tr.trend_type = .sentiment_shift ∧
        tr.affected_feedback_count = recentNegative summaries ∧
        tr.primary_topics = (rankedNegTopics analyses).take 3 ∧
        tr.confidence = min 0.9 ((recentNegRate summaries - histNegRate summaries) * 3) ∧
        tr.severity_score = min 1 ((recentNegRate summaries - histNegRate summaries) * 2
          + (recentNegative summaries : ℚ) / 20))
    ∧ detect_sentiment_shifts exShiftSummaries exShiftFeedback exShiftAnalyses =
        [⟨.sentiment_shift, 0.9, 10, [.bug], ⟨10, 10, 0⟩, 1⟩] := by
  constructor
  · intro summaries feedback_items analyses tr htr
    simp only [detect_sentiment_shifts] at htr
    split_ifs at htr with hlen htot hcond hne <;>
      first
        | exact absurd htr (List.not_mem_nil _)
        | (rw [List.mem_singleton] at htr; subst htr;
            exact ⟨hcond.1, hcond.2, rfl, rfl, rfl, rfl, rfl⟩)
  · norm_num +decide [detect_sentiment_shifts, exShiftSummaries, exShiftFeedback,
      exShiftAnalyses, recentNegRate, histNegRate, recentNegative, recentTotal,
      historicalNegative, historicalTotal, recentSummaries, historicalSummaries,
      rankedNegTopics, negTopicOccurrences, firstDedup, firstDedupAux,
      List.insertionSort, List.orderedInsert, min_def]

/-- Witness for C3: the concrete instance satisfies the firing conditions,
extracted by applying the theorem to the candidate it emits there. -/
theorem C3_sentiment_shift_detector_witness :
    recentNegRate exShiftSummaries > histNegRate exShiftSummaries + 0.2 ∧
    recentNegative exShiftSummaries ≥ 5 := by
  have h := C3_sentiment_shift_detector
  have hm : (⟨.sentiment_shift, 0.9, 10, [.bug], ⟨10, 10, 0⟩, 1⟩ : TrendAnalysis)
      ∈ detect_sentiment_shifts exShiftSummaries exShiftFeedback exShiftAnalyses := by
    rw [h.2]; exact List.mem_singleton.mpr rfl
  obtain ⟨hgt, hge, -⟩ := h.1 exShiftSummaries exShiftFeedback exShiftAnalyses _ hm
  exact ⟨hgt, hge⟩

/-- C4: the topic-cluster detector emits a candidate for a topic exactly when
count ≥ 5, count/total ≥ 0.15 and the 0.6·volume + 0.4·sentiment severity is
≥ 0.5; every emitted candidate carries the specified fields; and the concrete
6-of-30 all-non-negative bug topic qualifies yet yields severity 0.18 < 0.5,
so nothing is emitted. -/
theorem C4_topic_cluster_detector :
    (∀ (summaries : List DailySummary) (feedback_items : List FeedbackItem)
        (analyses : List InsightAnalysis) (topic : TopicTag),
      (∃ tr ∈ detect_topic_clusters summaries feedback_items analyses,
          tr.primary_topics = [topic]) ↔
        (topicCount analyses topic ≥ 5 ∧
          (topicCount analyses topic : ℚ) / (analyses.length : ℚ) ≥ 0.15 ∧
          clusterSeverity analyses topic ≥ 0.5))
    ∧ (∀ (summaries : List DailySummary) (feedback_items : List FeedbackItem)
        (analyses : List InsightAnalysis),
      ∀ tr ∈ detect_topic_clusters summaries feedback_items analyses,
        ∃ topic : TopicTag,
          tr = ⟨.topic_cluster, min 0.95 (clusterVolumeScore analyses topic + 0.3),
                topicCount analyses topic, [topic],
                topicSentimentDist analyses topic, clusterSeverity analyses topic⟩)
    ∧ detect_topic_clusters [] [] exClusterAnalyses = []
    ∧ topicCount exClusterAnalyses .bug = 6
    ∧ exClusterAnalyses.length = 30
    ∧ (topicSentimentDist exClusterAnalyses .bug).negative = 0
    ∧ clusterSeverity exClusterAnalyses .bug = 0.18 := by
  refine ⟨?_, ?_, ?_, ?_, ?_, ?_, ?_⟩
  · intro summaries feedback_items analyses topic
    constructor
    · rintro ⟨tr, htr, hpt⟩
      simp only [detect_topic_clusters] at htr
      rw [List.mem_filterMap] at htr
      obtain ⟨t, ht, hmk⟩ := htr
      simp only [mkTopicClusterCandidate] at hmk
      split_ifs at hmk with hq hs
      obtain rfl := Option.some.inj hmk
      simp only at hpt
      obtain rfl := (List.cons.inj hpt).1
      exact ⟨hq.1, hq.2, hs⟩
    · rintro ⟨h5, hr, hs⟩
      have hmem : topic ∈ firstDedup (topicOccurrences analyses) := by
        rw [mem_firstDedup]
        rw [← List.count_pos_iff]
        unfold topicCount at h5
        omega
      refine ⟨⟨.topic_cluster, min 0.95 (clusterVolumeScore analyses topic + 0.3),
        topicCount analyses topic, [topic], topicSentimentDist analyses topic,
        clusterSeverity analyses topic⟩, ?_, rfl⟩
      simp only [detect_topic_clusters]
      rw [List.mem_filterMap]
      refine ⟨topic, hmem, ?_⟩
      simp only [mkTopicClusterCandidate]
      rw [if_pos ⟨h5, hr⟩, if_pos hs]
  · intro summaries feedback_items analyses tr htr
    simp only [detect_topic_clusters] at htr
    rw [List.mem_filterMap] at htr
    obtain ⟨t, ht, hmk⟩ := htr
    simp only [mkTopicClusterCandidate] at hmk
    split_ifs at hmk with hq hs
    obtain rfl := Option.some.inj hmk
    exact ⟨t, rfl⟩
  · norm_num +decide [List.count_cons, detect_topic_clusters, exClusterAnalyses,
      firstDedup, firstDedupAux, topicOccurrences, mkTopicClusterCandidate, topicCount,
      clusterSeverity, clusterVolumeScore, clusterSentimentScore, topicSentimentDist,
      topicAnalysesOf, List.replicate, min_def]
  · norm_num +decide [List.count_cons, topicCount, topicOccurrences, exClusterAnalyses,
      List.replicate]
  · norm_num [exClusterAnalyses]
  · norm_num +decide [topicSentimentDist, topicAnalysesOf, exClusterAnalyses,
      List.replicate]
  · norm_num +decide [List.count_cons, clusterSeverity, clusterVolumeScore,
      clusterSentimentScore, topicSentimentDist, topicAnalysesOf, topicCount,
      topicOccurrences, exClusterAnalyses, List.replicate, min_def]

/-- Witness for C4: applying the emission characterisation at a concrete
input on which the support topic fires. -/
theorem C4_topic_cluster_detector_witness :
    ∃ tr ∈ detect_topic_clusters [] []
        (List.replicate 12 ⟨0, ⟨.negative⟩, ⟨[.support]⟩⟩ : List InsightAnalysis),
      tr.primary_topics = [.support] := by
  refine (C4_topic_cluster_detector.1 [] []
    (List.replicate 12 ⟨0, ⟨.negative⟩, ⟨[.support]⟩⟩) .support).mpr ?_
  refine ⟨?_, ?_, ?_⟩ <;>
    norm_num +decide [List.count_cons, topicCount, topicOccurrences, clusterSeverity,
      clusterVolumeScore, clusterSentimentScore, topicSentimentDist, topicAnalysesOf,
      List.replicate, min_def]

/-- C5: the volume-spike detector is silent on windows of fewer than 3 days;
with at least 3 days it fires exactly when the last day's total exceeds twice
the window mean and is at least 10, and the candidate carries severity
min(1, (recent/avg)/5), confidence 0.9, the catch-all topic and an all-neutral
distribution. -/
theorem C5_volume_spike_detector :
    (∀ (summaries : List DailySummary) (feedback_items : List FeedbackItem),
      (summaries.length < 3 → detect_volume_spikes summaries feedback_items = []) ∧
      (3 ≤ summaries.length →
        ((detect_volume_spikes summaries feedback_items ≠ [] ↔
          ((lastSummaryTotal summaries : ℚ) > 2 * avgVolume summaries ∧
            10 ≤ lastSummaryTotal summaries)) ∧
        ∀ tr ∈ detect_volume_spikes summaries feedback_items,
          tr = ⟨.volume_spike, 0.9, lastSummaryTotal summaries, [.general],
                ⟨0, 0, lastSummaryTotal summaries⟩,
                min 1 (((lastSummaryTotal summaries : ℚ) / avgVolume summaries) / 5)⟩)))
    ∧ detect_volume_spikes exSpikeSummaries [] = [exVolumeTrend] := by
  constructor
  · intro summaries feedback_items
    constructor
    · intro hlen
      simp only [detect_volume_spikes, if_pos hlen]
    · intro hlen
      have hlen' : ¬ summaries.length < 3 := by omega
      constructor
      · simp only [detect_volume_spikes, if_neg hlen']
        split_ifs with hfire
        · simp only [ne_eq, List.cons_ne_nil, not_false_eq_true, true_iff]
          exact ⟨by linarith [hfire.1], hfire.2⟩
        · simp only [ne_eq, not_true_eq_false, false_iff]
          intro hc
          exact hfire ⟨by linarith [hc.1], hc.2⟩
      · intro tr htr
        simp only [detect_volume_spikes, if_neg hlen'] at htr
        split_ifs at htr with hfire
        · rw [List.mem_singleton] at htr
          exact htr
        · simp at htr
  · norm_num +decide [detect_volume_spikes, exSpikeSummaries, avgVolume,
      lastSummaryTotal, exVolumeTrend, min_def]

/-- Witness for C5: the concrete spike window fires, obtained by applying the
theorem's characterisation at `exSpikeSummaries`. -/
theorem C5_volume_spike_detector_witness :
    detect_volume_spikes exSpikeSummaries [] ≠ [] := by
  have h := (C5_volume_spike_detector.1 exSpikeSummaries []).2 (by norm_num [exSpikeSummaries])
  refine h.1.mpr ?_
  norm_num [exSpikeSummaries, lastSummaryTotal, avgVolume]

/-- Every topic is in the vocabulary list. -/
theorem TopicTag.mem_all (t : TopicTag) : t ∈ TopicTag.all := by
  cases t <;> simp [TopicTag.all]

/-- The per-day per-topic negative estimate exactly as claim C6 words it:
`topic_count × day_negative_count / day_total_topic_mentions`, an exact
rational with no flooring and no capping at the topic count.  Defined only to
compare the claim's formula against the code's `recurringEstimate`. -/
def claimDayEstimate (s : DailySummary) (t : TopicTag) : ℚ :=
  (s.topic_breakdown t : ℚ) * (s.sentiment_breakdown.negative : ℚ) /
    (topicMentionsTotal s : ℚ)

/-- Days on which the claim's exact estimate is positive. -/
def claimOccurrenceDays (summaries : List DailySummary) (t : TopicTag) : Nat :=
  (summaries.filter (fun s => 0 < claimDayEstimate s t)).length

/-- The claim's summed exact estimate. -/
def claimTotalEstimate (summaries : List DailySummary) (t : TopicTag) : ℚ :=
  (summaries.map (fun s => claimDayEstimate s t)).sum

/-- C6 counterexample.  First input: five days on which the code's own
estimates give the bug topic 3 of 5 days and summed estimate 3 — the claim's
emission conditions — yet the detector emits nothing, because the severity
0.7·(3/5)+0.3·(3/10) = 0.51 fails the inner ≥ 0.6 gate the claim omits.
Second input: the claim's exact proportional estimate for bug is 2/3 > 0 on
all five days, summing to 10/3 ≥ 3, yet the detector emits nothing, because
the code floors each day's estimate (`int(...)`) to 0. -/
theorem C6_recurring_issue_counterexample :
    (2 * occurrenceDays exRecurringA .bug ≥ exRecurringA.length ∧
      totalEstimate exRecurringA .bug ≥ 3 ∧
      detect_recurring_issues exRecurringA [] [] = [])
    ∧ (exRecurringB.length = 5 ∧
      claimOccurrenceDays exRecurringB .bug = 5 ∧
      claimTotalEstimate exRecurringB .bug ≥ 3 ∧
      detect_recurring_issues exRecurringB [] [] = []) := by
  constructor
  · refine ⟨?_, ?_, ?_⟩
    · norm_num +decide [occurrenceDays, exRecurringA, recurringEstimate,
        topicMentionsTotal, ratFloorNat, bugOnly, TopicTag.all]
    · norm_num +decide [totalEstimate, exRecurringA, recurringEstimate,
        topicMentionsTotal, ratFloorNat, bugOnly, TopicTag.all]
    · norm_num +decide [detect_recurring_issues, exRecurringA, TopicTag.all,
        mkRecurringCandidate, occurrenceDays, totalEstimate, recurringEstimate,
        recurringSeverity, topicMentionsTotal, ratFloorNat, bugOnly, min_def]
  · refine ⟨by norm_num [exRecurringB], ?_, ?_, ?_⟩
    · norm_num +decide [claimOccurrenceDays, claimDayEstimate, exRecurringB,
        topicMentionsTotal, bugSupportTopics, TopicTag.all]
    · norm_num +decide [claimTotalEstimate, claimDayEstimate, exRecurringB,
        topicMentionsTotal, bugSupportTopics, TopicTag.all]
    · norm_num +decide [detect_recurring_issues, exRecurringB, TopicTag.all,
        mkRecurringCandidate, occurrenceDays, totalEstimate, recurringEstimate,
        recurringSeverity, topicMentionsTotal, ratFloorNat, bugSupportTopics, min_def]

/-- C6 (amended): the recurring-issue detector is silent below 5 days; with at
least 5 days it emits a candidate for a topic exactly when the topic has a
positive floored-and-capped per-day estimate
`min(topic_count, int(day_neg × topic_count / day_total_mentions))` on at
least 50% of the days, the summed estimate is at least 3, AND the severity
0.7·(days/len) + 0.3·min(1, sum/10) is at least 0.6; every candidate carries
confidence 0.8, affected count = the summed estimate, and an all-negative
sentiment distribution. -/
theorem C6_recurring_issue_amended :
    ∀ (summaries : List DailySummary) (feedback_items : List FeedbackItem)
      (analyses : List InsightAnalysis),
      (summaries.length < 5 →
        detect_recurring_issues summaries feedback_items analyses = []) ∧
      (5 ≤ summaries.length →
        (∀ topic : TopicTag,
          (∃ tr ∈ detect_recurring_issues summaries feedback_items analyses,
              tr.primary_topics = [topic]) ↔
            ((occurrenceDays summaries topic : ℚ) ≥ (summaries.length : ℚ) * 0.5 ∧
              totalEstimate summaries topic ≥ 3 ∧
              recurringSeverity summaries topic ≥ 0.6)) ∧
        ∀ tr ∈ detect_recurring_issues summaries feedback_items analyses,
          ∃ topic : TopicTag,
            tr = ⟨.recurring_issue, 0.8, totalEstimate summaries topic, [topic],
                  ⟨0, totalEstimate summaries topic, 0⟩,
                  recurringSeverity summaries topic⟩) := by
  intro summaries feedback_items analyses
  constructor
  · intro hlen
    simp only [detect_recurring_issues, if_pos hlen]
  · intro hlen
    have hlen' : ¬ summaries.length < 5 := by omega
    constructor
    · intro topic
      constructor
      · rintro ⟨tr, htr, hpt⟩
        simp only [detect_recurring_issues, if_neg hlen'] at htr
        rw [List.mem_filterMap] at htr
        obtain ⟨t, ht, hmk⟩ := htr
        simp only [mkRecurringCandidate] at hmk
        split_ifs at hmk with hq hs
        obtain rfl := Option.some.inj hmk
        simp only at hpt
        obtain rfl := (List.cons.inj hpt).1
        exact ⟨hq.2.1, hq.2.2, hs⟩
      · rintro ⟨h50, h3, hs⟩
        have hocc : 0 < occurrenceDays summaries topic := by
          by_contra hc
          push_neg at hc
          have h0 : occurrenceDays summaries topic = 0 := by omega
          rw [h0] at h50
          have h5 : (5 : ℚ) ≤ (summaries.length : ℚ) := by exact_mod_cast hlen
          norm_num at h50
          linarith
        refine ⟨⟨.recurring_issue, 0.8, totalEstimate summaries topic, [topic],
          ⟨0, totalEstimate summaries topic, 0⟩, recurringSeverity summaries topic⟩,
          ?_, rfl⟩
        simp only [detect_recurring_issues, if_neg hlen']
        rw [List.mem_filterMap]
        refine ⟨topic, TopicTag.mem_all topic, ?_⟩
        simp only [mkRecurringCandidate]
        rw [if_pos ⟨hocc, h50, h3⟩, if_pos hs]
    · intro tr htr
      simp only [detect_recurring_issues, if_neg hlen'] at htr
      rw [List.mem_filterMap] at htr
      obtain ⟨t, ht, hmk⟩ := htr
      simp only [mkRecurringCandidate] at hmk
      split_ifs at hmk with hq hs
      obtain rfl := Option.some.inj hmk
      exact ⟨t, rfl⟩

/-- Five days on which bug is the only topic, one negative record per day:
the recurring-issue detector fires on it. -/
def exRecurringC : List DailySummary :=
  [⟨1, 1, ⟨0, 1, 0⟩, bugOnly 1⟩,
   ⟨2, 1, ⟨0, 1, 0⟩, bugOnly 1⟩,
   ⟨3, 1, ⟨0, 1, 0⟩, bugOnly 1⟩,
   ⟨4, 1, ⟨0, 1, 0⟩, bugOnly 1⟩,
   ⟨5, 1, ⟨0, 1, 0⟩, bugOnly 1⟩]

/-- Witness for the amended C6: on `exRecurringC` the amended emission
conditions hold for bug, so applying the theorem yields a candidate. -/
theorem C6_recurring_issue_amended_witness :
    ∃ tr ∈ detect_recurring_issues exRecurringC [] [],
      tr.primary_topics = [.bug] := by
  have h := ((C6_recurring_issue_amended exRecurringC [] []).2
    (by norm_num [exRecurringC])).1 .bug
  refine h.mpr ⟨?_, ?_, ?_⟩
  · norm_num +decide [occurrenceDays, exRecurringC, recurringEstimate,
      topicMentionsTotal, ratFloorNat, bugOnly, TopicTag.all]
  · norm_num +decide [totalEstimate, exRecurringC, recurringEstimate,
      topicMentionsTotal, ratFloorNat, bugOnly, TopicTag.all]
  · norm_num +decide [recurringSeverity, occurrenceDays, totalEstimate, exRecurringC,
      recurringEstimate, topicMentionsTotal, ratFloorNat, bugOnly, TopicTag.all, min_def]

/-- C7 counterexample: for a volume-spike trend the claim says every record in
the pool is relevant, but a pooled record with no matching classification is
skipped: with an empty classification list the filter returns `[]`, not the
pooled record. -/
theorem C7_relevance_filter_counterexample :
    exVolumeTrend.trend_type = .volume_spike ∧
    filter_relevant_feedback exVolumeTrend exPool [] = [] := by
  constructor
  · norm_num [exVolumeTrend]
  · norm_num [filter_relevant_feedback, exVolumeTrend, exPool, relevantTo,
      lookupAnalysis, List.insertionSort]

/-- C7 (amended): the relevance filter returns exactly the pooled records that
have a matching classification and satisfy the relevance rule (topic overlap,
or negative sentiment under a sentiment-shift trend, or any record under a
volume-spike trend), stably sorted most-recent-first by timestamp and capped
at 10 items. -/
theorem C7_relevance_filter_amended :
    ∀ (trend : TrendAnalysis) (pool : List FeedbackItem)
      (analyses : List InsightAnalysis),
      filter_relevant_feedback trend pool analyses
        = (List.insertionSort (fun a b => b.timestamp ≤ a.timestamp)
            (pool.filter (relevantTo trend analyses))).take 10
      ∧ (∀ item ∈ filter_relevant_feedback trend pool analyses,
          item ∈ pool ∧ ∃ a, lookupAnalysis analyses item.id = some a ∧
            ((∃ t ∈ trend.primary_topics, t ∈ a.topic_analysis.topics)
              ∨ (trend.trend_type = .sentiment_shift ∧
                  a.sentiment_analysis.sentiment = .negative)
              ∨ trend.trend_type = .volume_spike))
      ∧ (filter_relevant_feedback trend pool analyses).Pairwise
          (fun x y => y.timestamp ≤ x.timestamp)
      ∧ (filter_relevant_feedback trend pool analyses).length ≤ 10 := by
  intro trend pool analyses
  refine ⟨rfl, ?_, ?_, ?_⟩
  · intro item hitem
    simp only [filter_relevant_feedback] at hitem
    have hsort := List.take_subset 10 _ hitem
    have hfil := (List.perm_insertionSort
      (fun a b : FeedbackItem => b.timestamp ≤ a.timestamp) _).mem_iff.mp hsort
    obtain ⟨hpool, hrel⟩ := List.mem_filter.mp hfil
    refine ⟨hpool, ?_⟩
    cases hl : lookupAnalysis analyses item.id with
    | none => rw [relevantTo, hl] at hrel; exact absurd hrel (by simp)
    | some a =>
        rw [relevantTo, hl] at hrel
        simp only [Bool.or_eq_true, List.any_eq_true, decide_eq_true_eq,
          Bool.and_eq_true] at hrel
        refine ⟨a, rfl, ?_⟩
        rcases hrel with (⟨t, ht, hmem⟩ | h) | h
        · exact Or.inl ⟨t, ht, hmem⟩
        · exact Or.inr (Or.inl h)
        · exact Or.inr (Or.inr h)
  · exact (pairwise_insertionSortKeyDesc (fun i : FeedbackItem => i.timestamp)
      (pool.filter (relevantTo trend analyses))).sublist (List.take_sublist _ _)
      |>.imp (fun h => h)
  · simp only [filter_relevant_feedback]
    exact List.length_take_le 10 _

/-- Witness for the amended C7: applied at a pool whose only record is
classified, under a volume-spike trend. -/
theorem C7_relevance_filter_amended_witness :
    (⟨0, 0⟩ : FeedbackItem) ∈ exPool ∧
    ∃ a, lookupAnalysis exPoolAnalyses 0 = some a ∧
      ((∃ t ∈ exVolumeTrend.primary_topics, t ∈ a.topic_analysis.topics)
        ∨ (exVolumeTrend.trend_type = .sentiment_shift ∧
            a.sentiment_analysis.sentiment = .negative)
        ∨ exVolumeTrend.trend_type = .volume_spike) := by
  have h := (C7_relevance_filter_amended exVolumeTrend exPool exPoolAnalyses).2.1
    ⟨0, 0⟩ (by norm_num [filter_relevant_feedback, exVolumeTrend, exPool,
      exPoolAnalyses, relevantTo, lookupAnalysis, List.insertionSort,
      List.orderedInsert])
  exact h

/-- If the abstracted generation outcome validates to `none`, the single-goal
synthesis returns `none` whether or not relevant evidence exists. -/
theorem generate_single_goal_eq_none (llm : TrendAnalysis → GenResult)
    (trend : TrendAnalysis) (fb : List FeedbackItem) (an : List InsightAnalysis)
    (h : generate_goal_with_llm (llm trend) = none) :
    generate_single_goal llm trend fb an = none := by
  unfold generate_single_goal
  rw [h]
  dsimp only
  split_ifs <;> rfl

/-- A successfully synthesized proposal records the trend it came from and the
ids of exactly the filtered relevant evidence. -/
theorem single_goal_some_spec (llm : TrendAnalysis → GenResult)
    (trend : TrendAnalysis) (fb : List FeedbackItem) (an : List InsightAnalysis)
    (g : GoalProposal) (h : generate_single_goal llm trend fb an = some g) :
    g.source_trend = trend ∧
    g.supporting_feedback_ids
      = (filter_relevant_feedback trend fb an).map (fun i => i.id) := by
  unfold generate_single_goal at h
  dsimp only at h
  by_cases hemp : (filter_relevant_feedback trend fb an).isEmpty = true
  · rw [if_pos hemp] at h
    exact absurd h (by simp)
  · rw [if_neg hemp] at h
    cases hm : generate_goal_with_llm (llm trend) with
    | none => rw [hm] at h; exact absurd h (by simp)
    | some gd =>
        rw [hm] at h
        obtain rfl := Option.some.inj h
        exact ⟨rfl, rfl⟩

/-- C8: goal synthesis returns `None` whenever the generation outcome is a
raised exception, an unparsable response, a missing title or description, or
a title/description with out-of-bounds length — never an error; a title of
exactly 10 characters with a description of exactly 50 passes validation and
yields a proposal, while a 5-character title yields `None`. -/
theorem C8_goal_validation :
    (∀ (llm : TrendAnalysis → GenResult) (trend : TrendAnalysis)
        (fb : List FeedbackItem) (an : List InsightAnalysis),
      (llm trend = .raises → generate_single_goal llm trend fb an = none) ∧
      (llm trend = .unparsable → generate_single_goal llm trend fb an = none) ∧
      (∀ d tags e i, llm trend = .parsed none d tags e i →
          generate_single_goal llm trend fb an = none) ∧
      (∀ t tags e i, llm trend = .parsed t none tags e i →
          generate_single_goal llm trend fb an = none) ∧
      (∀ t d tags e i, llm trend = .parsed (some t) (some d) tags e i →
          (t.length < 10 ∨ t.length > 200 ∨ d.length < 50) →
          generate_single_goal llm trend fb an = none))
    ∧ exTitle10.length = 10 ∧ exDesc50.length = 50
    ∧ (generate_single_goal exGoodLLM exVolumeTrend exPool exPoolAnalyses).isSome = true
    ∧ exTitle5.length = 5
    ∧ generate_single_goal exShortTitleLLM exVolumeTrend exPool exPoolAnalyses = none := by
  refine ⟨?_, by decide, by decide,
    by norm_num +decide [generate_single_goal, exGoodLLM, exVolumeTrend, exPool,
      exPoolAnalyses, filter_relevant_feedback, relevantTo, lookupAnalysis,
      List.insertionSort, List.orderedInsert, generate_goal_with_llm, exTitle10, exDesc50],
    by decide,
    by norm_num +decide [generate_single_goal, exShortTitleLLM, exVolumeTrend, exPool,
      exPoolAnalyses, filter_relevant_feedback, relevantTo, lookupAnalysis,
      List.insertionSort, List.orderedInsert, generate_goal_with_llm, exTitle5, exDesc50]⟩
  intro llm trend fb an
  refine ⟨fun h => ?_, fun h => ?_, fun d tags e i h => ?_, fun t tags e i h => ?_,
    fun t d tags e i h hlen => ?_⟩
  · exact generate_single_goal_eq_none llm trend fb an (by rw [h]; rfl)
  · exact generate_single_goal_eq_none llm trend fb an (by rw [h]; rfl)
  · refine generate_single_goal_eq_none llm trend fb an ?_
    rw [h]
    cases d <;> rfl
  · refine generate_single_goal_eq_none llm trend fb an ?_
    rw [h]
    cases t <;> rfl
  · refine generate_single_goal_eq_none llm trend fb an ?_
    rw [h]
    simp only [generate_goal_with_llm]
    split_ifs <;> first | rfl | (exfalso; omega)

/-- Witness for C8: a collaborator that raises yields `None` on the concrete
trend, by applying the theorem's first failure case. -/
theorem C8_goal_validation_witness :
    generate_single_goal (fun _ => GenResult.raises) exVolumeTrend exPool
      exPoolAnalyses = none :=
  (C8_goal_validation.1 (fun _ => GenResult.raises) exVolumeTrend exPool
    exPoolAnalyses).1 rfl

/-- C9: batch goal generation processes trends independently — the sources of
the returned proposals are exactly the trends whose individual synthesis
succeeds, in input order — and on the concrete three-trend batch whose second
generation raises, exactly the first and third trends yield proposals, in
order. -/
theorem C9_batch_independence :
    (∀ (llm : TrendAnalysis → GenResult) (trends : List TrendAnalysis)
        (fb : List FeedbackItem) (an : List InsightAnalysis),
      (generate_goals_from_trends llm trends fb an).map (fun g => g.source_trend)
        = trends.filter (fun t => (generate_single_goal llm t fb an).isSome))
    ∧ (generate_goals_from_trends exBatchLLM
        [exBatchTrend1, exBatchTrend2, exBatchTrend3] exPool exPoolAnalyses).map
        (fun g => g.source_trend) = [exBatchTrend1, exBatchTrend3]
    ∧ (generate_goals_from_trends exBatchLLM
        [exBatchTrend1, exBatchTrend2, exBatchTrend3] exPool exPoolAnalyses).length
        = 2 := by
  refine ⟨?_, ?_, ?_⟩
  · intro llm trends fb an
    induction trends with
    | nil => rfl
    | cons t ts ih =>
        simp only [generate_goals_from_trends] at ih ⊢
        rw [List.filterMap_cons, List.filter_cons]
        cases hg : generate_single_goal llm t fb an with
        | none => simp [hg, ih]
        | some g =>
            have hsrc := (single_goal_some_spec llm t fb an g hg).1
            simp [hg, hsrc, ih]
  · norm_num +decide [generate_goals_from_trends, List.filterMap_cons, exBatchLLM,
      exGoodLLM, exBatchTrend1, exBatchTrend2, exBatchTrend3, TrendAnalysis.mk.injEq,
      generate_single_goal, exPool, exPoolAnalyses, filter_relevant_feedback,
      relevantTo, lookupAnalysis, List.insertionSort, List.orderedInsert,
      generate_goal_with_llm, exTitle10, exDesc50]
  · norm_num +decide [generate_goals_from_trends, List.filterMap_cons, exBatchLLM,
      exGoodLLM, exBatchTrend1, exBatchTrend2, exBatchTrend3, TrendAnalysis.mk.injEq,
      generate_single_goal, exPool, exPoolAnalyses, filter_relevant_feedback,
      relevantTo, lookupAnalysis, List.insertionSort, List.orderedInsert,
      generate_goal_with_llm, exTitle10, exDesc50]

/-- A record returned by the relevance filter always has a matching
classification among the supplied analyses. -/
theorem classified_of_mem_filter_relevant (trend : TrendAnalysis)
    (pool : List FeedbackItem) (analyses : List InsightAnalysis)
    (item : FeedbackItem) (h : item ∈ filter_relevant_feedback trend pool analyses) :
    ∃ a ∈ analyses, a.feedback_id = item.id := by
  simp only [filter_relevant_feedback] at h
  have hsort := List.take_subset 10 _ h
  have hfil := (List.perm_insertionSort
    (fun a b : FeedbackItem => b.timestamp ≤ a.timestamp) _).mem_iff.mp hsort
  obtain ⟨hpool, hrel⟩ := List.mem_filter.mp hfil
  cases hl : lookupAnalysis analyses item.id with
  | none => rw [relevantTo, hl] at hrel; exact absurd hrel (by simp)
  | some a =>
      unfold lookupAnalysis at hl
      have hmem : a ∈ analyses.reverse := List.mem_of_find?_eq_some hl
      have hp := List.find?_some hl
      exact ⟨a, List.mem_reverse.mp hmem, of_decide_eq_true hp⟩

/-- C10: a feedback item whose id has no matching classification is never
returned by the relevance filter — for any trend type, volume-spike included —
and consequently never appears among a proposal's supporting-feedback-ids. -/
theorem C10_unclassified_records_excluded :
    (∀ (trend : TrendAnalysis) (pool : List FeedbackItem)
        (analyses : List InsightAnalysis) (item : FeedbackItem),
      item ∈ filter_relevant_feedback trend pool analyses →
      ∃ a ∈ analyses, a.feedback_id = item.id)
    ∧ (∀ (llm : TrendAnalysis → GenResult) (trend : TrendAnalysis)
        (pool : List FeedbackItem) (analyses : List InsightAnalysis)
        (g : GoalProposal) (fid : Nat),
      generate_single_goal llm trend pool analyses = some g →
      fid ∈ g.supporting_feedback_ids →
      ∃ a ∈ analyses, a.feedback_id = fid) := by
  constructor
  · exact fun trend pool analyses item h =>
      classified_of_mem_filter_relevant trend pool analyses item h
  · intro llm trend pool analyses g fid hg hfid
    rw [(single_goal_some_spec llm trend pool analyses g hg).2] at hfid
    rw [List.mem_map] at hfid
    obtain ⟨item, hitem, rfl⟩ := hfid
    exact classified_of_mem_filter_relevant trend pool analyses item hitem

/-- Witness for C10: the classified record of the concrete pool is returned,
and the theorem produces its classification. -/
theorem C10_unclassified_records_excluded_witness :
    ∃ a ∈ exPoolAnalyses, a.feedback_id = 0 :=
  C10_unclassified_records_excluded.1 exVolumeTrend exPool exPoolAnalyses ⟨0, 0⟩
    (by norm_num [filter_relevant_feedback, exVolumeTrend, exPool, exPoolAnalyses,
      relevantTo, lookupAnalysis, List.insertionSort, List.orderedInsert])

end ProductInsight
